import Mathlib

/-!
Verification of `src/backend/schemas/saidify_keri.py`.

The script reads JSON schema documents, computes a Self-Addressing
Identifier (SAID) for each via keripy's `scheming.Schemer`, rewrites the
document's `$id` field when it differs, and emits a constant-name table.

The embedding below models the script's own logic faithfully.  The parts
delegated to external libraries (the `json` module's parse and dump, and
keripy's `Schemer` SAID computation) are abstract function parameters
collected in an `Env` structure: the script never looks inside them, it
only composes them, so every property of the script holds for all such
environments.
-/

/- JSON-compatible values, as produced by Python's `json.load`.
Arrays and nested objects are given by the mutual types `JArr` and
`JObj`. -/
mutual

inductive JValue where
  | null
  | bool (b : Bool)
  | num (n : Int)
  | str (s : String)
  | arr (xs : JArr)
  | obj (fields : JObj)
deriving DecidableEq, Repr

inductive JArr where
  | nil
  | cons (hd : JValue) (tl : JArr)
deriving DecidableEq, Repr

inductive JObj where
  | nil
  | cons (k : String) (v : JValue) (tl : JObj)
deriving DecidableEq, Repr

end

/-- A Python dict with string keys and JSON values, modelled as an
association list in insertion order (Python dicts preserve insertion
order and have no duplicate keys). -/
abbrev Dict := List (String × JValue)

namespace Dict

/-- Python `d.get(k, default)` without the default: first binding of `k`. -/
def get (k : String) : Dict → Option JValue
  | [] => none
  | (k', v) :: tl => if k' = k then some v else get k tl

/-- Python `d.pop(k, None)`: remove the binding of `k` (all bindings in
the model; Python dicts never hold duplicates, so this agrees). -/
def erase (k : String) : Dict → Dict
  | [] => []
  | (k', v) :: tl => if k' = k then erase k tl else (k', v) :: erase k tl

/-- Python `d[k] = v`: replace the value of the first binding of `k` in
place, or append a new binding at the end. -/
def set (k : String) (v : JValue) : Dict → Dict
  | [] => [(k, v)]
  | (k', v') :: tl => if k' = k then (k, v) :: tl else (k', v') :: set k v tl

theorem erase_set (k : String) (v : JValue) (d : Dict) :
    erase k (set k v d) = erase k d := by
  induction d with
  | nil => simp [set, erase]
  | cons hd tl ih =>
    obtain ⟨k', v'⟩ := hd
    by_cases h : k' = k
    · subst h
      simp [set, erase, ih]
    · simp [set, erase, h, ih]

theorem erase_erase (k : String) (d : Dict) :
    erase k (erase k d) = erase k d := by
  induction d with
  | nil => simp [erase]
  | cons hd tl ih =>
    obtain ⟨k', v'⟩ := hd
    by_cases h : k' = k
    · simp [erase, h, ih]
    · simp [erase, h, ih]

theorem erase_of_get_none (k : String) (d : Dict) (h : get k d = none) :
    erase k d = d := by
  induction d with
  | nil => simp [erase]
  | cons hd tl ih =>
    obtain ⟨k', v'⟩ := hd
    by_cases hk : k' = k
    · simp [get, hk] at h
    · simp [get, hk] at h
      simp [erase, hk, ih h]

theorem get_set (k : String) (v : JValue) (d : Dict) :
    get k (set k v d) = some v := by
  induction d with
  | nil => simp [set, get]
  | cons hd tl ih =>
    obtain ⟨k', v'⟩ := hd
    by_cases h : k' = k
    · simp [set, get, h]
    · simp [set, get, h, ih]

end Dict

/-- Exceptions that can be raised while one document is processed, named
after the spec's error taxonomy.  In Python all of them are subclasses
of `Exception`: `notFound` is `FileNotFoundError` from `open(filepath)`,
`parseError` is `json.JSONDecodeError` from `json.load`,
`unsupportedAlgorithm` and `encodingLengthMismatch` are keripy
configuration errors raised by `Schemer`, `storageWriteFailure` is an
`OSError` during the rewrite, and `invalidFieldType` is the spec's
non-string-identifier error (the source never raises it). -/
inductive PyError where
  | notFound
  | parseError
  | invalidFieldType
  | unsupportedAlgorithm
  | encodingLengthMismatch
  | storageWriteFailure
deriving DecidableEq, Repr

/-- External collaborators the script calls but never inspects:
`parse` is `json.load` (reading from a string of file content; `none`
models a raised `json.JSONDecodeError`), `dump` is
`json.dump(schema, f, indent=4)` rendered to a string, and `schemer`
is keripy's `scheming.Schemer(sed=·).said` (an `Except.error` models a
raised keripy exception, e.g. an unsupported derivation code). -/
structure Env where
  parse : String → Option Dict
  dump : Dict → String
  schemer : Dict → Except PyError String

/-- Embeds `compute_said(schema_dict)` (saidify_keri.py lines 27-35).
Python passes the dict by reference; the function's first statement
`schema_copy = dict(schema_dict)` takes a shallow copy, the second
`schema_copy.pop('$id', None)` removes the identifier field from that
copy only, and `scheming.Schemer(sed=schema_copy).said` is the abstract
`env.schemer`.  The embedding threads the caller's dict explicitly and
returns it alongside the result, so that what the caller observes after
the call is part of the function's meaning. -/
def compute_said (env : Env) (schema_dict : Dict) : Except PyError String × Dict :=
  let schema_copy : Dict := schema_dict
  let schema_copy := Dict.erase "$id" schema_copy
  (env.schemer schema_copy, schema_dict)

/-- File-system contents: an association list from path to the file's
textual content. -/
abbrev FS := List (String × String)

namespace FS

/-- Content of the file at `path`, if it exists. -/
def read (path : String) : FS → Option String
  | [] => none
  | (p, c) :: tl => if p = path then some c else read path tl

/-- Replace the content of the file at `path` (or create it). -/
def write (path : String) (content : String) : FS → FS
  | [] => [(path, content)]
  | (p, c) :: tl =>
      if p = path then (p, content) :: tl else (p, c) :: write path content tl

end FS

/-- What `saidify_file` reports for one document: the printed old `$id`
(the stored value, or the string `(none)` when the field is absent), the
computed SAID, and whether the file was rewritten (`Updated!`) or not
(`no change`). -/
structure FileResult where
  old_id : JValue
  new_id : String
  changed : Bool
deriving DecidableEq, Repr

/-- Embeds `saidify_file(filepath)` (saidify_keri.py lines 38-63) over a
file system `fs`:
  * `open(filepath, 'r')` / `json.load(f)` — a missing file raises
    `FileNotFoundError`, malformed content raises `JSONDecodeError`;
  * `old_id = schema.get('$id', '(none)')`;
  * `new_id = compute_said(schema)`;
  * if `old_id == new_id` nothing is written;
  * otherwise `schema['$id'] = new_id` and the file is reopened with
    `open(filepath, 'w')`, which truncates it to length zero before
    `json.dump(schema, f, indent=4)` and `f.write('\n')` run.  The flag
    `writeOk` selects whether that dump succeeds; when it fails the file
    has already been truncated, which the model records as content `""`
    (zero bytes of the new serialization written) together with the
    raised error.
The pair returned is (the raised exception or the returned SAID with the
printed report, the file system after the call). -/
def saidify_file (env : Env) (writeOk : Bool) (fs : FS) (filepath : String) :
    Except PyError FileResult × FS :=
  match FS.read filepath fs with
  | none => (.error .notFound, fs)
  | some content =>
    match env.parse content with
    | none => (.error .parseError, fs)
    | some schema =>
      let old_id := (Dict.get "$id" schema).getD (.str "(none)")
      match (compute_said env schema).1 with
      | .error e => (.error e, fs)
      | .ok new_id =>
        if old_id = .str new_id then
          (.ok ⟨old_id, new_id, false⟩, fs)
        else
          let schema := Dict.set "$id" (.str new_id) schema
          if writeOk then
            (.ok ⟨old_id, new_id, true⟩,
             FS.write filepath (env.dump schema ++ "\n") fs)
          else
            (.error .storageWriteFailure, FS.write filepath "" fs)

/-- Python `str.replace` restricted to a nonempty pattern, over char
lists: scan left to right, replace every non-overlapping occurrence.
`fuel` bounds the recursion; started at the input's length it never runs
out, since each step consumes at least one character. -/
def replaceAux (pat rep : List Char) : Nat → List Char → List Char
  | _, [] => []
  | 0, l => l
  | fuel + 1, c :: rest =>
      if pat.isPrefixOf (c :: rest) then
        rep ++ replaceAux pat rep fuel (List.drop (pat.length - 1) rest)
      else
        c :: replaceAux pat rep fuel rest

/-- Python `s.replace(pat, rep)` for the nonempty patterns the script
uses (on an empty pattern it returns `s` unchanged, which the script
never exercises). -/
def pyReplace (s pat rep : String) : String :=
  if pat.data = [] then s
  else ⟨replaceAux pat.data rep.data s.data.length s.data⟩

/-- Python `s.upper()` for the ASCII names the script handles. -/
def pyUpper (s : String) : String :=
  ⟨s.data.map Char.toUpper⟩

/-- Python `pat in s` (substring containment) for a nonempty pattern. -/
def hasSub (pat : List Char) : List Char → Bool
  | [] => pat.isEmpty
  | c :: rest => pat.isPrefixOf (c :: rest) || hasSub pat rest

/-- Embeds the constant-name derivation of `main` (saidify_keri.py
lines 95-99):
`name.replace('matou-', '').replace('-', '_').upper()`, then
`'_SAID'` is appended when `'_SCHEMA' not in const_name`, otherwise
every `'_SCHEMA'` is replaced by `'_SCHEMA_SAID'`. -/
def const_name (name : String) : String :=
  let c := pyUpper (pyReplace (pyReplace name "matou-" "") "-" "_")
  if hasSub ("_SCHEMA").data c.data = false then c ++ "_SAID"
  else pyReplace c "_SCHEMA" "_SCHEMA_SAID"

/-- Python `for name, said in results.items()` emission: each result row
becomes the pair (derived constant name, SAID), printed as
`const NAME = 'SAID';`. -/
def emit_consts (results : List (String × String)) : List (String × String) :=
  results.map (fun p => (const_name p.1, p.2))

/-- Index of the last occurrence of `c` in `l`, if any. -/
def lastIdxOf (c : Char) (l : List Char) : Option Nat :=
  (l.foldl
    (fun st d => (st.1 + 1, if d = c then some st.1 else st.2))
    ((0 : Nat), (none : Option Nat))).2

/-- Final path component: characters after the last '/'. -/
def baseName (l : List Char) : List Char :=
  l.foldl (fun acc d => if d = '/' then [] else acc ++ [d]) []

/-- Embeds Python `pathlib.Path(p).stem`: the final path component with
its suffix removed; a suffix is the part from the last dot when that
dot is neither the first nor the last character of the name. -/
def path_stem (p : String) : String :=
  let name := baseName p.data
  match lastIdxOf '.' name with
  | none => ⟨name⟩
  | some i => if 0 < i ∧ i < name.length - 1 then ⟨name.take i⟩ else ⟨name⟩

/-- Python `results[k] = v` on a dict modelled as an association list in
insertion order: overwrite in place or append. -/
def setAssoc (k v : String) : List (String × String) → List (String × String)
  | [] => [(k, v)]
  | (k', v') :: tl =>
      if k' = k then (k, v) :: tl else (k', v') :: setAssoc k v tl

/-- What `main`'s batch loop has accumulated: the `results` dict
(`results[f.stem] = said` on success) and the per-file error lines it
printed (`print(f"  Error: {e}")` on exception). -/
structure BatchState where
  results : List (String × String)
  errors : List (String × PyError)
deriving DecidableEq, Repr

/-- Embeds the batch loop of `main` (saidify_keri.py lines 82-88):
each file is processed inside `try`, a success stores the SAID under the
file's stem, and `except Exception as e` catches every error raised for
that file (all `PyError` cases are `Exception` subclasses in Python),
records it and falls through to the next file. -/
def runBatch (env : Env) (writeOk : Bool) :
    FS → List String → BatchState → BatchState × FS
  | fs, [], st => (st, fs)
  | fs, f :: rest, st =>
      match saidify_file env writeOk fs f with
      | (.ok r, fs') =>
          runBatch env writeOk fs' rest
            { st with results := setAssoc (path_stem f) r.new_id st.results }
      | (.error e, fs') =>
          runBatch env writeOk fs' rest
            { st with errors := st.errors ++ [(f, e)] }

/-- The three lines printed by the import guard (saidify_keri.py
lines 20-23) when `from keri.core import scheming` raises
`ImportError`. -/
def import_guard_msgs : List String :=
  ["Error: keripy not installed. Run: pip install keri",
   "Or run this script inside a KERIA Docker container:",
   "  docker exec -it keria python3 /path/to/saidify_keri.py"]

/-- Outcome of one process run: `exit_code = some c` when `sys.exit(c)`
terminated the process early, the guard lines printed, the batch state
reached, and the file system left behind. -/
structure ProgramRun where
  exit_code : Option Nat
  printed : List String
  state : BatchState
  fs : FS
deriving DecidableEq, Repr

/-- Embeds a whole process run: the module-level import guard
(saidify_keri.py lines 18-24) runs before `main`; when keripy is
unavailable the guard prints its message and calls `sys.exit(1)`, so no
document is read, processed or written.  Otherwise `main`'s loop runs
over the selected files. -/
def run_program (keripy_available : Bool) (env : Env) (writeOk : Bool)
    (fs : FS) (files : List String) : ProgramRun :=
  if keripy_available then
    let r := runBatch env writeOk fs files ⟨[], []⟩
    { exit_code := none, printed := [], state := r.1, fs := r.2 }
  else
    { exit_code := some 1, printed := import_guard_msgs,
      state := ⟨[], []⟩, fs := fs }

/-- Claim C1 (confirmed).  Self-exclusion: the computed identifier is
independent of the identifier field's existing value.  For every
document `d` and any values `v1`, `v2`, `compute_said` on `d` with
`$id` set to `v1`, on `d` with `$id` set to `v2`, and on `d` with `$id`
removed (absent) returns the same result, because the `$id` entry is
removed from a copy before the digest is computed — for every digest
collaborator `env.schemer`. -/
theorem C1_self_exclusion (env : Env) (d : Dict) (v1 v2 : JValue) :
    (compute_said env (Dict.set "$id" v1 d)).1
      = (compute_said env (Dict.set "$id" v2 d)).1 ∧
    (compute_said env (Dict.set "$id" v1 d)).1
      = (compute_said env (Dict.erase "$id" d)).1 := by
  simp [compute_said, Dict.erase_set, Dict.erase_erase]

/-- Claim C9 (confirmed).  Non-mutation of the input: the caller's
dictionary observed after a call to `compute_said` is exactly the
dictionary passed in — in particular its `$id` binding, if any, is
untouched — because the `$id` removal happens on the copy
`dict(schema_dict)` only. -/
theorem C9_no_mutation (env : Env) (d : Dict) :
    (compute_said env d).2 = d ∧
    Dict.get "$id" (compute_said env d).2 = Dict.get "$id" d := by
  exact ⟨rfl, rfl⟩

/-- Helper: every failure path of `saidify_file` other than the write
failure returns before the file is reopened for writing, so the file
system is left untouched. -/
theorem saidify_file_error_fs (env : Env) (w : Bool) (fs : FS) (p : String)
    (e : PyError) (h1 : (saidify_file env w fs p).1 = .error e)
    (h2 : e ≠ .storageWriteFailure) :
    (saidify_file env w fs p).2 = fs := by
  cases hr : FS.read p fs with
  | none => simp [saidify_file, hr]
  | some content =>
    cases hp : env.parse content with
    | none => simp [saidify_file, hp, hr]
    | some schema =>
      cases hs : (compute_said env schema).1 with
      | error e2 => simp [saidify_file, hr, hp, hs]
      | ok nid =>
        by_cases hc : (Dict.get "$id" schema).getD (.str "(none)") = .str nid
        · simp [saidify_file, hr, hp, hs, hc]
        · cases w <;> simp [saidify_file, hr, hp, hs, hc] at h1 ⊢
          exact absurd h1.symm h2

/-- Strip `p` from the front of `s` when it is a leading piece of `s`
(used only to state the spec's reading of the name derivation). -/
def stripLead (p s : String) : String :=
  if p.data.isPrefixOf s.data then ⟨s.data.drop p.data.length⟩ else s

/-- Insert `ins` immediately after the first occurrence of `pat` (used
only to state the spec's reading of the name derivation). -/
def insertAfterFirst (pat ins : List Char) : List Char → List Char
  | [] => []
  | c :: rest =>
      if pat.isPrefixOf (c :: rest) then
        pat ++ ins ++ List.drop (pat.length - 1) rest
      else c :: insertAfterFirst pat ins rest

/-- The symbolic-name rule as the spec words it: strip the known
leading piece `matou-`, replace separators with underscores, uppercase,
append `_SAID` unless the name contains the `_SCHEMA` marker, in which
case insert `_SAID` immediately after that marker. -/
def const_name_spec (name : String) : String :=
  let c := pyUpper (pyReplace (stripLead "matou-" name) "-" "_")
  if hasSub ("_SCHEMA").data c.data = false then c ++ "_SAID"
  else ⟨insertAfterFirst ("_SCHEMA").data ("_SAID").data c.data⟩

/-- Claim C2 (confirmed).  Idempotence of the rewrite: when the stored
document's `$id` field holds exactly the SAID computed from its current
content, `saidify_file` reports the old value, the same SAID and
`changed = false`, and the file system it returns is the one it was
given — the stored content stays byte-identical and no write is
performed. -/
theorem C2_idempotent_no_write (env : Env) (writeOk : Bool) (fs : FS)
    (path content : String) (schema : Dict) (s : String)
    (hread : FS.read path fs = some content)
    (hparse : env.parse content = some schema)
    (hold : Dict.get "$id" schema = some (.str s))
    (hsaid : (compute_said env schema).1 = .ok s) :
    saidify_file env writeOk fs path = (.ok ⟨.str s, s, false⟩, fs) := by
  simp [saidify_file, hread, hparse, hsaid, hold]

/-- Witness for C2: a file whose stored `$id` is already the SAID the
environment computes is reported unchanged and the file system is
untouched. -/
theorem C2_idempotent_no_write_witness : saidify_file
    ⟨fun c => if c = "CONTENT"
              then some [("$id", .str "SAIDX"), ("t", .str "v")] else none,
     fun _ => "D", fun _ => .ok "SAIDX"⟩
    true [("p", "CONTENT")] "p"
    = (.ok ⟨.str "SAIDX", "SAIDX", false⟩, [("p", "CONTENT")]) :=
  C2_idempotent_no_write _ _ _ _ "CONTENT"
    [("$id", .str "SAIDX"), ("t", .str "v")] "SAIDX"
    (by decide) rfl (by decide) rfl

/-- A batch environment whose digest collaborator raises the
configuration error `UnsupportedAlgorithm` for the document stored in
file `f1` (which parses to the empty document) and succeeds for every
other document. -/
def env3 : Env :=
  ⟨fun c => if c = "A" then some [] else some [("t", .str "x")],
   fun _ => "D",
   fun d => if d = [] then .error .unsupportedAlgorithm else .ok "ESAID"⟩

/-- Two readable files for `env3`: `f1` triggers the configuration
error, `f2` processes normally. -/
def fs3 : FS := [("f1", "A"), ("f2", "B")]

/-- Claim C3 (counterexample).  The claim says an `UnsupportedAlgorithm`
condition terminates the whole batch run.  In the source, `main`'s loop
wraps each document in `try ... except Exception`, which catches keripy
configuration errors too: here `f1` raises `UnsupportedAlgorithm`, yet
the run completes normally (no early exit), the error is recorded for
`f1`, and the remaining document `f2` is still processed and rewritten. -/
theorem C3_counterexample :
    (saidify_file env3 true fs3 "f1").1 = .error .unsupportedAlgorithm ∧
    run_program true env3 true fs3 ["f1", "f2"]
      = { exit_code := none, printed := [],
          state := ⟨[("f2", "ESAID")], [("f1", .unsupportedAlgorithm)]⟩,
          fs := [("f1", "A"), ("f2", "D\n")] } := by
  constructor
  · rfl
  · decide

/-- Claim C3 (amended).  A document whose processing raises
`UnsupportedAlgorithm` or `EncodingLengthMismatch` does not terminate
the batch: the error is caught by the per-document `except Exception`
handler exactly like data errors, recorded for that document, and the
loop continues with the remaining documents over an unchanged file
system. -/
theorem C3_config_error_continues (env : Env) (w : Bool) (fs : FS)
    (st : BatchState) (bad : String) (ys : List String) (e : PyError)
    (he : e = .unsupportedAlgorithm ∨ e = .encodingLengthMismatch)
    (hbad : (saidify_file env w fs bad).1 = .error e) :
    runBatch env w fs (bad :: ys) st
      = runBatch env w fs ys
          { st with errors := st.errors ++ [(bad, e)] } := by
  have hfs : (saidify_file env w fs bad).2 = fs := by
    apply saidify_file_error_fs env w fs bad e hbad
    rcases he with h | h <;> simp [h]
  have hpair : saidify_file env w fs bad = (.error e, fs) := by
    rw [Prod.ext_iff]
    exact ⟨hbad, hfs⟩
  simp [runBatch, hpair]

/-- Witness for the amended C3: with `f1` raising the configuration
error, the batch over `f1 :: [f2]` equals the batch over `[f2]` with
the error recorded against `f1`. -/
theorem C3_config_error_continues_witness :
    runBatch env3 true fs3 ["f1", "f2"] ⟨[], []⟩
      = runBatch env3 true fs3 ["f2"] ⟨[], [("f1", .unsupportedAlgorithm)]⟩ :=
  C3_config_error_continues env3 true fs3 ⟨[], []⟩ "f1" ["f2"]
    .unsupportedAlgorithm (Or.inl rfl) rfl

/-- An environment whose only document carries a non-string `$id`
(the number 5) and whose digest collaborator succeeds. -/
def env4 : Env :=
  ⟨fun _ => some [("$id", .num 5), ("t", .str "x")],
   fun _ => "D",
   fun _ => .ok "ESAID"⟩

/-- Claim C4 (counterexample).  The claim says a document whose `$id`
holds a non-string value makes SAID computation fail with an
`InvalidFieldType` error recorded for the document.  In the source no
such check exists: `compute_said` pops `$id` from the copy without ever
looking at its value, so on the document with `$id = 5` processing
succeeds, no error of any kind is recorded, and the batch stores its
SAID. -/
theorem C4_counterexample :
    (saidify_file env4 true [("p", "X")] "p").1
      = .ok ⟨.num 5, "ESAID", true⟩ ∧
    run_program true env4 true [("p", "X")] ["p"]
      = { exit_code := none, printed := [],
          state := ⟨[("p", "ESAID")], []⟩, fs := [("p", "D\n")] } := by
  constructor
  · rfl
  · decide

/-- Claim C4 (amended).  For every document whose `$id` exists but holds
a non-string value, SAID computation succeeds anyway — the value is
discarded before digesting — and since a non-string value never equals
the computed string SAID, the document is rewritten with the string
SAID and reported `changed = true`; no error is raised or recorded. -/
theorem C4_nonstring_id_rewritten (env : Env) (fs : FS)
    (p c said : String) (schema : Dict) (v : JValue)
    (hr : FS.read p fs = some c) (hp : env.parse c = some schema)
    (hget : Dict.get "$id" schema = some v)
    (hnotstr : ∀ s : String, v ≠ .str s)
    (hsaid : (compute_said env schema).1 = .ok said) :
    saidify_file env true fs p
      = (.ok ⟨v, said, true⟩,
         FS.write p (env.dump (Dict.set "$id" (.str said) schema) ++ "\n") fs) := by
  simp [saidify_file, hr, hp, hsaid, hget, hnotstr said]

/-- Witness for the amended C4: the `$id = 5` document is processed
without error and rewritten with the computed SAID. -/
theorem C4_nonstring_id_rewritten_witness :
    saidify_file env4 true [("p", "X")] "p"
      = (.ok ⟨.num 5, "ESAID", true⟩,
         FS.write "p"
           (env4.dump (Dict.set "$id" (.str "ESAID")
              [("$id", .num 5), ("t", .str "x")]) ++ "\n")
           [("p", "X")]) :=
  C4_nonstring_id_rewritten env4 [("p", "X")] "p" "X" "ESAID"
    [("$id", .num 5), ("t", .str "x")] (.num 5)
    (by decide) rfl (by decide) (fun s => by simp) rfl

/-- An environment holding one parseable document with no `$id`, whose
serializer renders the rewritten document as `NEWCONTENT` and whose
digest collaborator succeeds. -/
def env5 : Env :=
  ⟨fun c => if c = "ORIG" then some [("a", .str "b")] else none,
   fun _ => "NEWCONTENT",
   fun _ => .ok "ESAID"⟩

/-- Claim C5 (counterexample).  The claim says the rewrite is atomic:
on a write failure the prior stored content is unchanged.  The source
rewrites with `open(filepath, 'w')`, which truncates the file before
`json.dump` writes anything, so when the dump then fails the file holds
neither the old nor the new content: here the file that held `ORIG`
is left holding the empty string. -/
theorem C5_counterexample :
    saidify_file env5 false [("p", "ORIG")] "p"
      = (.error .storageWriteFailure, [("p", "")]) ∧
    FS.read "p" [("p", "")] = some "" ∧ "" ≠ "ORIG" := by
  refine ⟨rfl, by decide, by decide⟩

/-- Claim C5 (amended).  When `saidify_file` decides to rewrite a
document, the write is not atomic: the file is first truncated by
opening it in write mode and then filled.  On success the file holds
exactly the new serialization (plus the trailing newline); on a failure
during the dump the prior content is lost and the file is left
truncated. -/
theorem C5_truncating_write (env : Env) (fs : FS)
    (p c said : String) (schema : Dict)
    (hr : FS.read p fs = some c) (hp : env.parse c = some schema)
    (hsaid : (compute_said env schema).1 = .ok said)
    (hold : (Dict.get "$id" schema).getD (.str "(none)") ≠ .str said) :
    saidify_file env true fs p
      = (.ok ⟨(Dict.get "$id" schema).getD (.str "(none)"), said, true⟩,
         FS.write p (env.dump (Dict.set "$id" (.str said) schema) ++ "\n") fs) ∧
    saidify_file env false fs p
      = (.error .storageWriteFailure, FS.write p "" fs) := by
  constructor <;> simp [saidify_file, hr, hp, hsaid, hold]

/-- Witness for the amended C5: the document without `$id` is rewritten
in full on success, and left truncated on a write failure. -/
theorem C5_truncating_write_witness :
    saidify_file env5 true [("p", "ORIG")] "p"
      = (.ok ⟨.str "(none)", "ESAID", true⟩,
         FS.write "p"
           (env5.dump (Dict.set "$id" (.str "ESAID") [("a", .str "b")]) ++ "\n")
           [("p", "ORIG")]) ∧
    saidify_file env5 false [("p", "ORIG")] "p"
      = (.error .storageWriteFailure, FS.write "p" "" [("p", "ORIG")]) :=
  C5_truncating_write env5 [("p", "ORIG")] "p" "ORIG" "ESAID"
    [("a", .str "b")] (by decide) rfl rfl (by decide)

/-- Claim C6 (confirmed).  Per-document isolation: when processing one
document fails because its file does not exist or its content is
malformed, the batch loop records the error for that document and
continues with the remaining documents over an unchanged file system —
it does not cancel or block them. -/
theorem C6_per_document_isolation (env : Env) (w : Bool) (fs : FS)
    (st : BatchState) (bad : String) (ys : List String)
    (h : FS.read bad fs = none ∨
         ∃ c, FS.read bad fs = some c ∧ env.parse c = none) :
    ∃ e : PyError,
      runBatch env w fs (bad :: ys) st
        = runBatch env w fs ys
            { st with errors := st.errors ++ [(bad, e)] } := by
  rcases h with h | ⟨c, hc, hp⟩
  · exact ⟨.notFound, by simp [runBatch, saidify_file, h]⟩
  · exact ⟨.parseError, by simp [runBatch, saidify_file, hc, hp]⟩

/-- Witness for C6: a missing file at the head of the batch is recorded
and the tail is still processed. -/
theorem C6_per_document_isolation_witness :
    ∃ e : PyError,
      runBatch env5 true [("p", "ORIG")] ["missing", "p"] ⟨[], []⟩
        = runBatch env5 true [("p", "ORIG")] ["p"] ⟨[], [("missing", e)]⟩ :=
  C6_per_document_isolation env5 true [("p", "ORIG")] ⟨[], []⟩
    "missing" ["p"] (Or.inl (by decide))

/-- Claim C7 (counterexample).  The claim says the constant name is
derived by stripping the leading `matou-` from the base name.  The
source uses `name.replace('matou-', '')`, which removes every
occurrence, not only a leading one: on the base name `matou-matou-x`
the script emits `X_SAID`, while the stripping rule the claim states
yields `MATOU_X_SAID`. -/
theorem C7_counterexample :
    const_name "matou-matou-x" = "X_SAID" ∧
    const_name_spec "matou-matou-x" = "MATOU_X_SAID" ∧
    const_name "matou-matou-x" ≠ const_name_spec "matou-matou-x" := by
  refine ⟨by decide, by decide, by decide⟩

/-- Claim C7 (amended).  The emitted constant name removes every
occurrence of `matou-` (not only a leading one), replaces `-` with `_`,
uppercases, then appends `_SAID` when `_SCHEMA` does not occur and
otherwise replaces every occurrence of `_SCHEMA` with `_SCHEMA_SAID`;
the emission pairs each derived name with that document's SAID.  In
particular `matou-endorsement-schema` yields `ENDORSEMENT_SCHEMA_SAID`,
`matou-foo` yields `FOO_SAID`, `matou-matou-x` yields `X_SAID`, and a
name with two markers gains two insertions. -/
theorem C7_name_derivation (s1 s2 s3 s4 : String) :
    emit_consts [("matou-endorsement-schema", s1), ("matou-foo", s2),
                 ("matou-matou-x", s3), ("matou-a-schema-b-schema", s4)]
      = [("ENDORSEMENT_SCHEMA_SAID", s1), ("FOO_SAID", s2),
         ("X_SAID", s3), ("A_SCHEMA_SAID_B_SCHEMA_SAID", s4)] := by
  simp only [emit_consts, List.map]
  refine congrArg₂ _ (congrArg₂ _ (by decide) rfl) ?_
  refine congrArg₂ _ (congrArg₂ _ (by decide) rfl) ?_
  refine congrArg₂ _ (congrArg₂ _ (by decide) rfl) ?_
  exact congrArg₂ _ (congrArg₂ _ (by decide) rfl) rfl

/-- Claim C8 (confirmed).  Missing-capability exit: when keripy cannot
be imported, the process prints the guard's descriptive message and
terminates with exit status 1 — a nonzero status — before any document
is read, processed or written: the batch state is empty and the file
system is exactly the one the process started with, whatever files were
requested. -/
theorem C8_import_guard_exit (env : Env) (w : Bool) (fs : FS)
    (files : List String) :
    run_program false env w fs files
      = { exit_code := some 1, printed := import_guard_msgs,
          state := ⟨[], []⟩, fs := fs } ∧ (1 : Nat) ≠ 0 := by
  constructor
  · simp [run_program]
  · decide

/-- An environment for C10 holding one document without `$id` under
content `N1` and the same document with `$id = "(none)"` under content
`N2`, with one shared digest collaborator. -/
def env10 : Env :=
  ⟨fun c => if c = "N1" then some [("t", .str "v")]
            else if c = "N2" then some [("t", .str "v"), ("$id", .str "(none)")]
            else none,
   fun _ => "D",
   fun _ => .ok "ESAID"⟩

/-- Claim C10 (confirmed).  Absence-sentinel conflation: `saidify_file`
represents an absent `$id` by the literal string `(none)`, so a
document with no `$id` and the same document whose `$id` holds exactly
the string `(none)` are processed identically: both runs report the old
value `(none)`, compute the same SAID, and decide to write by comparing
that SAID against the string `(none)` rather than against true absence
— no change exactly when the computed SAID is the string `(none)`. -/
theorem C10_absence_conflation (env1 env2 : Env) (w : Bool) (fs1 fs2 : FS)
    (p1 p2 c1 c2 said : String) (d : Dict)
    (hs : env1.schemer = env2.schemer)
    (h1 : FS.read p1 fs1 = some c1) (hp1 : env1.parse c1 = some d)
    (hnone : Dict.get "$id" d = none)
    (h2 : FS.read p2 fs2 = some c2)
    (hp2 : env2.parse c2 = some (Dict.set "$id" (.str "(none)") d))
    (hsaid : (compute_said env1 d).1 = .ok said) :
    (saidify_file env1 w fs1 p1).1 = (saidify_file env2 w fs2 p2).1 ∧
    (said = "(none)" →
      (saidify_file env1 w fs1 p1).1 = .ok ⟨.str "(none)", said, false⟩) ∧
    (said ≠ "(none)" → w = true →
      (saidify_file env1 w fs1 p1).1 = .ok ⟨.str "(none)", said, true⟩) := by
  have hsaid2 : (compute_said env2 (Dict.set "$id" (.str "(none)") d)).1
      = .ok said := by
    simp only [compute_said, Dict.erase_set, ← hs]
    simpa [compute_said] using hsaid
  refine ⟨?_, ?_, ?_⟩
  · by_cases hg : "(none)" = said
    · subst hg
      cases w <;>
        simp [saidify_file, h1, hp1, h2, hp2, hsaid, hsaid2, hnone, Dict.get_set]
    · cases w <;>
        simp [saidify_file, h1, hp1, h2, hp2, hsaid, hsaid2, hnone, Dict.get_set, hg]
  · intro h
    subst h
    simp [saidify_file, h1, hp1, hsaid, hnone]
  · intro h hw
    subst hw
    simp [saidify_file, h1, hp1, hsaid, hnone, Ne.symm h]

/-- Witness for C10: the `$id`-less document under `N1` and its
`$id = "(none)"` twin under `N2` produce the same report, with old
value `(none)` and a rewrite decided by the computed SAID differing
from `(none)`. -/
theorem C10_absence_conflation_witness :
    (saidify_file env10 true [("q1", "N1")] "q1").1
      = (saidify_file env10 true [("q2", "N2")] "q2").1 ∧
    ("ESAID" = "(none)" →
      (saidify_file env10 true [("q1", "N1")] "q1").1
        = .ok ⟨.str "(none)", "ESAID", false⟩) ∧
    ("ESAID" ≠ "(none)" → true = true →
      (saidify_file env10 true [("q1", "N1")] "q1").1
        = .ok ⟨.str "(none)", "ESAID", true⟩) :=
  C10_absence_conflation env10 env10 true [("q1", "N1")] [("q2", "N2")]
    "q1" "q2" "N1" "N2" "ESAID" [("t", .str "v")]
    rfl (by decide) (by decide) (by decide) (by decide) (by decide) rfl
